import Mathlib

/-!
Shallow embedding of `GlobalDataTypeRegistry`
(src/libuavcan/include/uavcan/node/global_data_type_registry.hpp).

The header under src/ gives the template body of `registerDataType`, the
insertion comparator `EntryInsertionComparator`, the `RegistrationResult`
enumeration, the inline `isFrozen`, the counts, and the debug `reset`.
The bodies of `remove`, `registImpl`, `freeze`, `find`,
`computeAggregateSignature` and `getDataTypeIDMask` live in a translation
unit that is not part of src/, so those operations are modelled from the
spec (sections 4.1 to 4.5), as marked on each definition.

Machine integers: `DataTypeID` is a small integer in [0, 1023]; ids and
64-bit signatures are modelled as `Nat` (no arithmetic is performed on
them by the registry, so no overflow is observable). The opaque
order-sensitive signature combination function is a parameter `ext`.
An `Entry` slot's identity (the static local variable per call site) is
modelled as a `Nat` tag `slot`.
-/

/-- Result of data type registration (enum `RegistrationResult` in the header). -/
inductive RegistrationResult where
  | Ok
  | Collision
  | InvalidParams
  | Frozen
deriving DecidableEq

/-- Data type kind: two independent namespaces, messages and services. -/
inductive DataTypeKind where
  | Message
  | Service
deriving DecidableEq

/-- Maximum valid data type ID (`DataTypeID::Max` = 1023 in the reference system). -/
def DataTypeID.Max : Nat := 1023

/-- Immutable descriptor value: kind, numeric id, 64-bit signature, full name. -/
structure DataTypeDescriptor where
  kind : DataTypeKind
  id : Nat
  signature : Nat
  name : String
deriving DecidableEq

/-- An entry slot: a durable storage cell (`static Entry` per call site) with
its identity tag `slot` and its current descriptor content. -/
structure Entry where
  slot : Nat
  descriptor : DataTypeDescriptor
deriving DecidableEq

/-- Registry state: the two per-kind ordered lists (`msgs_`, `srvs_`) and the
frozen flag (`frozen_`). -/
structure Registry where
  msgs : List Entry
  srvs : List Entry
  frozen : Bool
deriving DecidableEq

/-- Source `selectList(kind)`: the per-kind list. -/
def selectList (r : Registry) : DataTypeKind → List Entry
  | DataTypeKind.Message => r.msgs
  | DataTypeKind.Service => r.srvs

/-- Replace the per-kind list selected by `k`. -/
def setList (r : Registry) (k : DataTypeKind) (l : List Entry) : Registry :=
  match k with
  | DataTypeKind.Message => { r with msgs := l }
  | DataTypeKind.Service => { r with srvs := l }

/-- The other kind (used to state that a slot occupies at most one list). -/
def otherKind : DataTypeKind → DataTypeKind
  | DataTypeKind.Message => DataTypeKind.Service
  | DataTypeKind.Service => DataTypeKind.Message

/-- Ordered-list insertion. The insertion point comes from
`EntryInsertionComparator` in the header: the new entry is spliced
immediately before the first existing entry whose id is strictly greater
(or at the tail if none); spec section 4.1 `insert(slot)`. -/
def listInsert (e : Entry) : List Entry → List Entry
  | [] => [e]
  | p :: rest =>
      if p.descriptor.id > e.descriptor.id then e :: p :: rest
      else p :: listInsert e rest

/-- Modelled from the spec: `GlobalDataTypeRegistry::remove` (body not under
src/). Spec 4.1: unlink the slot by identity if present, no-op if it is not a
member; spec 4.2 step 3 with the step-1 frozen gate: on a frozen table the
operation refuses with Frozen and changes nothing. The slot's kind is fixed
per call site (`Type::DataTypeKind`), so removal targets that kind's list. -/
def removeEntry (r : Registry) (k : DataTypeKind) (slot : Nat) :
    RegistrationResult × Registry :=
  if r.frozen then (RegistrationResult.Frozen, r)
  else (RegistrationResult.Ok,
        setList r k ((selectList r k).filter (fun p => p.slot != slot)))

/-- Modelled from the spec: `GlobalDataTypeRegistry::registImpl` (body not
under src/). Spec 4.2 steps 2, 4, 5: refuse InvalidParams when the id is out
of range or the name is empty; scan the target kind's list for an id or name
collision; otherwise insert into the ordered list and return Ok. The entry
has already been detached, so every list member is another slot. -/
def registImpl (r : Registry) (e : Entry) : RegistrationResult × Registry :=
  if DataTypeID.Max < e.descriptor.id ∨ e.descriptor.name = "" then
    (RegistrationResult.InvalidParams, r)
  else if (selectList r e.descriptor.kind).any
      (fun p => p.descriptor.id == e.descriptor.id ||
                p.descriptor.name == e.descriptor.name) then
    (RegistrationResult.Collision, r)
  else
    (RegistrationResult.Ok,
     setList r e.descriptor.kind (listInsert e (selectList r e.descriptor.kind)))

/-- Source `GlobalDataTypeRegistry::registerDataType` (template body in the header
under src/): frozen gate; detach the static entry; overwrite the entry with
the new descriptor; detach again; then `registImpl`. Each early return
propagates a non-Ok removal result. `kind` is `Type::DataTypeKind`, fixed per
slot, hence identical at both remove calls. -/
def registerDataType (r : Registry) (slot : Nat) (kind : DataTypeKind)
    (id : Nat) (sig : Nat) (name : String) : RegistrationResult × Registry :=
  if r.frozen then (RegistrationResult.Frozen, r)
  else
    let p1 := removeEntry r kind slot
    if p1.1 ≠ RegistrationResult.Ok then p1
    else
      let e : Entry := ⟨slot, ⟨kind, id, sig, name⟩⟩
      let p2 := removeEntry p1.2 kind slot
      if p2.1 ≠ RegistrationResult.Ok then p2
      else registImpl p2.2 e

/-- Modelled from the spec: `freeze()` (body not under src/). Spec 4.3:
idempotent, sets frozen unconditionally. -/
def freeze (r : Registry) : Registry := { r with frozen := true }

/-- Source `isFrozen()` (inline in the header). -/
def isFrozen (r : Registry) : Bool := r.frozen

/-- Source `reset()` (inline in the header, debug builds): clears the frozen flag and
empties both lists. -/
def reset (_ : Registry) : Registry := ⟨[], [], false⟩

/-- Source `getNumMessageTypes()` (inline in the header). -/
def getNumMessageTypes (r : Registry) : Nat := r.msgs.length

/-- Source `getNumServiceTypes()` (inline in the header). -/
def getNumServiceTypes (r : Registry) : Nat := r.srvs.length

/-- Modelled from the spec: `find(kind, name)` (body not under src/).
Spec 4.4: linear scan of the kind's list comparing full names, first match
or not found. -/
def findByName (r : Registry) (k : DataTypeKind) (name : String) :
    Option DataTypeDescriptor :=
  ((selectList r k).find? (fun p => p.descriptor.name == name)).map
    (fun p => p.descriptor)

/-- Modelled from the spec: `find(kind, id)` (body not under src/).
Spec 4.4: linear scan comparing ids, first match or not found. -/
def findByID (r : Registry) (k : DataTypeKind) (id : Nat) :
    Option DataTypeDescriptor :=
  ((selectList r k).find? (fun p => p.descriptor.id == id)).map
    (fun p => p.descriptor)

/-- Bit mask over a list of entries: bit at position X is set iff the list
holds an entry with id X (type `DataTypeIDMask`, built by one ascending
pass; spec 4.5). The mask is a `Nat` read through `Nat.testBit`. -/
def maskOfList (l : List Entry) : Nat :=
  l.foldl (fun m e => m ||| 2 ^ e.descriptor.id) 0

/-- Modelled from the spec: `getDataTypeIDMask(kind, mask)` (body not under
src/). Spec 4.5: bit at position X set iff a type with id X is currently
registered in that kind; all other bits 0. -/
def getDataTypeIDMask (r : Registry) (k : DataTypeKind) : Nat :=
  maskOfList (selectList r k)

/-- One pass of the aggregate-signature accumulator over the entries, in list
order (ascending id): an entry whose id bit is set in the mask initialises
the accumulator with its signature if it is the first such entry, and is
otherwise folded in with the combination function `ext`; unselected entries
are skipped. Spec 4.5. -/
def foldSig (ext : Nat → Nat → Nat) (m : Nat) :
    List Entry → Option Nat → Option Nat
  | [], acc => acc
  | e :: rest, acc =>
      foldSig ext m rest
        (if m.testBit e.descriptor.id then
           match acc with
           | none => some e.descriptor.signature
           | some s => some (ext s e.descriptor.signature)
         else acc)

/-- Modelled from the spec: `computeAggregateSignature(kind, inout_mask)`
(body not under src/). Spec 4.5: fold the signatures of the registered
entries selected by the mask in ascending id order with the fixed
order-sensitive combination function `ext` (opaque to the registry, hence a
parameter); clear every mask bit that does not correspond to a registered
entry. Returns (signature accumulator, updated mask); the accumulator is
`none` when no entry was selected. -/
def computeAggregateSignature (ext : Nat → Nat → Nat) (r : Registry)
    (k : DataTypeKind) (m : Nat) : Option Nat × Nat :=
  (foldSig ext m (selectList r k) none, m &&& getDataTypeIDMask r k)

/-- The chained combination of a list of signatures in order: the head
initialises the accumulator, the rest are folded in with `ext`. -/
def combineChain (ext : Nat → Nat → Nat) : List Nat → Option Nat
  | [] => none
  | s :: rest => some (rest.foldl ext s)

/-- Strict ascending order by id between entries. -/
def entryLt (a b : Entry) : Prop := a.descriptor.id < b.descriptor.id

instance : DecidableRel entryLt := fun a b => by
  unfold entryLt; infer_instance

/-- The ordered-list invariant: sorted strictly ascending by id. -/
def SortedByID (l : List Entry) : Prop := l.Pairwise entryLt

instance (l : List Entry) : Decidable (SortedByID l) := by
  unfold SortedByID; infer_instance

/-- The registry invariant: both per-kind lists sorted strictly ascending. -/
def RegistryInv (r : Registry) : Prop :=
  SortedByID r.msgs ∧ SortedByID r.srvs

instance (r : Registry) : Decidable (RegistryInv r) := by
  unfold RegistryInv; infer_instance

/-! ### Helper lemmas about the embedding -/

theorem frozen_setList (r : Registry) (k : DataTypeKind) (l : List Entry) :
    (setList r k l).frozen = r.frozen := by
  cases k <;> rfl

theorem selectList_setList_same (r : Registry) (k : DataTypeKind) (l : List Entry) :
    selectList (setList r k l) k = l := by
  cases k <;> rfl

theorem selectList_setList_other (r : Registry) {k k' : DataTypeKind} (l : List Entry)
    (h : k' ≠ k) : selectList (setList r k l) k' = selectList r k' := by
  cases k <;> cases k' <;> first | rfl | exact absurd rfl h

theorem setList_setList (r : Registry) (k : DataTypeKind) (l1 l2 : List Entry) :
    setList (setList r k l1) k l2 = setList r k l2 := by
  cases k <;> rfl

theorem filter_slot_idem (l : List Entry) (slot : Nat) :
    (l.filter (fun p => p.slot != slot)).filter (fun p => p.slot != slot) =
      l.filter (fun p => p.slot != slot) := by
  rw [List.filter_filter]
  exact List.filter_congr (fun a _ => Bool.and_self _)

/-- Below the frozen gate, `registerDataType` is `registImpl` on the registry
with the slot detached from its kind's list. -/
theorem register_unfrozen_eq (r : Registry) (slot : Nat) (k : DataTypeKind)
    (id sig : Nat) (name : String) (hf : r.frozen = false) :
    registerDataType r slot k id sig name =
      registImpl (setList r k ((selectList r k).filter (fun p => p.slot != slot)))
        ⟨slot, ⟨k, id, sig, name⟩⟩ := by
  unfold registerDataType removeEntry
  simp [hf, frozen_setList, selectList_setList_same, setList_setList,
        filter_slot_idem]

theorem registImpl_frozen (r : Registry) (e : Entry) :
    (registImpl r e).2.frozen = r.frozen := by
  unfold registImpl
  split
  · rfl
  · split
    · rfl
    · exact frozen_setList _ _ _

theorem register_frozen (r : Registry) (slot : Nat) (k : DataTypeKind)
    (id sig : Nat) (name : String) :
    (registerDataType r slot k id sig name).2.frozen = r.frozen := by
  cases hf : r.frozen
  · rw [register_unfrozen_eq r slot k id sig name hf, registImpl_frozen,
        frozen_setList, hf]
  · unfold registerDataType
    simp [hf]

theorem registImpl_other (r : Registry) (e : Entry) {k' : DataTypeKind}
    (h : k' ≠ e.descriptor.kind) :
    selectList (registImpl r e).2 k' = selectList r k' := by
  unfold registImpl
  split
  · rfl
  · split
    · rfl
    · exact selectList_setList_other _ _ h

theorem register_other (r : Registry) (slot : Nat) {k : DataTypeKind}
    (id sig : Nat) (name : String) {k' : DataTypeKind} (h : k' ≠ k) :
    selectList (registerDataType r slot k id sig name).2 k' = selectList r k' := by
  cases hf : r.frozen
  · rw [register_unfrozen_eq r slot k id sig name hf, registImpl_other _ _ h,
        selectList_setList_other _ _ h]
  · unfold registerDataType
    simp [hf]

theorem mem_listInsert {p e : Entry} {l : List Entry} :
    p ∈ listInsert e l ↔ p = e ∨ p ∈ l := by
  induction l with
  | nil => simp [listInsert]
  | cons q rest ih =>
    unfold listInsert
    split
    · simp [List.mem_cons]
    · simp only [List.mem_cons, ih]
      tauto

theorem length_listInsert (e : Entry) (l : List Entry) :
    (listInsert e l).length = l.length + 1 := by
  induction l with
  | nil => rfl
  | cons q rest ih =>
    unfold listInsert
    split
    · simp [List.length_cons]
    · simp [List.length_cons, ih]

theorem sortedByID_listInsert (e : Entry) {l : List Entry} (hs : SortedByID l)
    (hfresh : ∀ p ∈ l, p.descriptor.id ≠ e.descriptor.id) :
    SortedByID (listInsert e l) := by
  induction l with
  | nil => exact List.pairwise_singleton _ _
  | cons q rest ih =>
    rw [SortedByID, List.pairwise_cons] at hs
    unfold listInsert
    split
    · rename_i hgt
      refine List.Pairwise.cons ?_ (List.Pairwise.cons hs.1 hs.2)
      intro x hx
      rcases List.mem_cons.mp hx with h | h
      · subst h; exact hgt
      · exact Nat.lt_trans hgt (hs.1 x h)
    · rename_i hle
      have hqe : q.descriptor.id < e.descriptor.id :=
        Nat.lt_of_le_of_ne (Nat.le_of_not_lt hle)
          (hfresh q (List.mem_cons_self q rest))
      refine List.Pairwise.cons ?_
        (ih hs.2 (fun p hp => hfresh p (List.mem_cons_of_mem q hp)))
      intro x hx
      rcases mem_listInsert.mp hx with h | h
      · subst h; exact hqe
      · exact hs.1 x h

theorem sortedByID_filter {l : List Entry} (hs : SortedByID l)
    (p : Entry → Bool) : SortedByID (l.filter p) :=
  List.Pairwise.sublist (List.filter_sublist l) hs

theorem find?_eq_some_of_unique {P : Entry → Bool} {l : List Entry} {e : Entry}
    (he : e ∈ l) (hP : P e = true) (huniq : ∀ p ∈ l, P p = true → p = e) :
    l.find? P = some e := by
  induction l with
  | nil => cases he
  | cons q rest ih =>
    by_cases hq : P q = true
    · have hqe : q = e := huniq q (List.mem_cons_self q rest) hq
      rw [List.find?_cons_of_pos _ hq]
      exact congrArg some hqe
    · have hne : e ∈ rest := by
        rcases List.mem_cons.mp he with h | h
        · subst h; exact absurd hP hq
        · exact h
      rw [List.find?_cons_of_neg _ hq]
      exact ih hne (fun p hp hPp => huniq p (List.mem_cons_of_mem q hp) hPp)

theorem nat_beq_decide_comm (a b : Nat) : (a == b) = decide (a = b) := by
  by_cases h : a = b
  · subst h; simp
  · simp [h]

theorem testBit_foldl_mask (l : List Entry) (m0 X : Nat) :
    (l.foldl (fun m e => m ||| 2 ^ e.descriptor.id) m0).testBit X =
      (m0.testBit X || l.any (fun e => e.descriptor.id == X)) := by
  induction l generalizing m0 with
  | nil => simp
  | cons e rest ih =>
    rw [List.foldl_cons, ih, Nat.testBit_or, Nat.testBit_two_pow, List.any_cons,
        nat_beq_decide_comm, Bool.or_assoc]

theorem testBit_maskOfList (l : List Entry) (X : Nat) :
    (maskOfList l).testBit X = l.any (fun e => e.descriptor.id == X) := by
  have := testBit_foldl_mask l 0 X
  rwa [Nat.zero_testBit, Bool.false_or] at this

theorem foldSig_some (ext : Nat → Nat → Nat) (m : Nat) (l : List Entry) (s : Nat) :
    foldSig ext m l (some s) =
      some (((l.filter (fun e => m.testBit e.descriptor.id)).map
        (fun e => e.descriptor.signature)).foldl ext s) := by
  induction l generalizing s with
  | nil => rfl
  | cons e rest ih =>
    by_cases h : m.testBit e.descriptor.id = true
    · simp [foldSig, h, ih, List.filter_cons]
    · simp only [Bool.not_eq_true] at h
      simp [foldSig, h, ih, List.filter_cons]

theorem foldSig_none (ext : Nat → Nat → Nat) (m : Nat) (l : List Entry) :
    foldSig ext m l none =
      combineChain ext ((l.filter (fun e => m.testBit e.descriptor.id)).map
        (fun e => e.descriptor.signature)) := by
  induction l with
  | nil => rfl
  | cons e rest ih =>
    by_cases h : m.testBit e.descriptor.id = true
    · simp [foldSig, h, foldSig_some, List.filter_cons, combineChain]
    · simp only [Bool.not_eq_true] at h
      simp [foldSig, h, ih, List.filter_cons]

instance : IsAntisymm Entry entryLt :=
  ⟨fun _ _ h1 h2 => absurd (Nat.lt_trans h1 h2) (Nat.lt_irrefl _)⟩

theorem sorted_perm_eq {l1 l2 : List Entry} (hp : l1.Perm l2)
    (h1 : SortedByID l1) (h2 : SortedByID l2) : l1 = l2 :=
  List.eq_of_perm_of_sorted hp h1 h2

theorem sortedByID_nodup {l : List Entry} (hs : SortedByID l) : l.Nodup :=
  hs.imp (fun h => by
    intro hEq
    rw [hEq] at h
    exact absurd h (Nat.lt_irrefl _))

theorem register_ok_result (r : Registry) (slot : Nat) (k : DataTypeKind)
    (id sig : Nat) (name : String) (hf : r.frozen = false)
    (hid : id ≤ DataTypeID.Max) (hname : name ≠ "")
    (hfresh : ∀ p ∈ selectList r k, p.slot ≠ slot →
      p.descriptor.id ≠ id ∧ p.descriptor.name ≠ name) :
    registerDataType r slot k id sig name =
      (RegistrationResult.Ok,
       setList r k (listInsert ⟨slot, ⟨k, id, sig, name⟩⟩
         ((selectList r k).filter (fun p => p.slot != slot)))) := by
  rw [register_unfrozen_eq _ _ _ _ _ _ hf]
  unfold registImpl
  rw [if_neg (not_or.mpr ⟨Nat.not_lt.mpr hid, hname⟩)]
  have hany : (((selectList r k).filter (fun p => p.slot != slot)).any
      (fun p => p.descriptor.id == id || p.descriptor.name == name)) = false := by
    rw [List.any_eq_false]
    intro p hp
    have hpl := List.mem_of_mem_filter hp
    have hps : p.slot ≠ slot := by
      have := (List.mem_filter.mp hp).2
      exact bne_iff_ne.mp this
    have h := hfresh p hpl hps
    simp [h.1, h.2]
  simp only [selectList_setList_same] at hany ⊢
  simp [hany, setList_setList]

theorem register_collision_result (r : Registry) (slot : Nat) (k : DataTypeKind)
    (id sig : Nat) (name : String) (hf : r.frozen = false)
    (hid : id ≤ DataTypeID.Max) (hname : name ≠ "")
    (hcol : ∃ p ∈ selectList r k, p.slot ≠ slot ∧
      (p.descriptor.id = id ∨ p.descriptor.name = name)) :
    registerDataType r slot k id sig name =
      (RegistrationResult.Collision,
       setList r k ((selectList r k).filter (fun p => p.slot != slot))) := by
  rw [register_unfrozen_eq _ _ _ _ _ _ hf]
  unfold registImpl
  rw [if_neg (not_or.mpr ⟨Nat.not_lt.mpr hid, hname⟩)]
  have hany : (((selectList r k).filter (fun p => p.slot != slot)).any
      (fun p => p.descriptor.id == id || p.descriptor.name == name)) = true := by
    rw [List.any_eq_true]
    obtain ⟨p, hp, hps, hcase⟩ := hcol
    refine ⟨p, List.mem_filter.mpr ⟨hp, bne_iff_ne.mpr hps⟩, ?_⟩
    rcases hcase with h | h <;> simp [h]
  simp only [selectList_setList_same] at hany ⊢
  simp [hany]

theorem sortedByID_selectList {r : Registry} (k : DataTypeKind)
    (hinv : RegistryInv r) : SortedByID (selectList r k) := by
  cases k
  · exact hinv.1
  · exact hinv.2

theorem registryInv_setList {r : Registry} {k : DataTypeKind} {l : List Entry}
    (hinv : RegistryInv r) (hl : SortedByID l) : RegistryInv (setList r k l) := by
  cases k
  · exact ⟨hl, hinv.2⟩
  · exact ⟨hinv.1, hl⟩

theorem registImpl_inv {r : Registry} {e : Entry} (hinv : RegistryInv r) :
    RegistryInv (registImpl r e).2 := by
  unfold registImpl
  split
  · exact hinv
  · split
    · exact hinv
    · rename_i hany
      refine registryInv_setList hinv ?_
      refine sortedByID_listInsert e (sortedByID_selectList _ hinv) ?_
      intro p hp hEq
      have hfalse : ((selectList r e.descriptor.kind).any
          (fun p => p.descriptor.id == e.descriptor.id ||
                    p.descriptor.name == e.descriptor.name)) = false := by
        rw [← Bool.not_eq_true]
        exact hany
      have hnp := List.any_eq_false.mp hfalse p hp
      apply hnp
      simp [hEq]

theorem removeEntry_inv {r : Registry} (k : DataTypeKind) (slot : Nat)
    (hinv : RegistryInv r) : RegistryInv (removeEntry r k slot).2 := by
  unfold removeEntry
  split
  · exact hinv
  · exact registryInv_setList hinv
      (sortedByID_filter (sortedByID_selectList k hinv) _)

theorem register_inv {r : Registry} (slot : Nat) (k : DataTypeKind)
    (id sig : Nat) (name : String) (hinv : RegistryInv r) :
    RegistryInv (registerDataType r slot k id sig name).2 := by
  cases hf : r.frozen
  · rw [register_unfrozen_eq _ _ _ _ _ _ hf]
    exact registImpl_inv (registryInv_setList hinv
      (sortedByID_filter (sortedByID_selectList k hinv) _))
  · unfold registerDataType
    simp [hf, hinv]

theorem length_filter_slot {l : List Entry} {e0 : Entry} (he0 : e0 ∈ l)
    (huniq : ∀ p ∈ l, p.slot = e0.slot → p = e0) (hnd : l.Nodup) :
    (l.filter (fun p => p.slot != e0.slot)).length + 1 = l.length := by
  induction l with
  | nil => cases he0
  | cons q rest ih =>
    by_cases hq : q = e0
    · subst hq
      have hall : ∀ p ∈ rest, (p.slot != q.slot) = true := by
        intro p hp
        refine bne_iff_ne.mpr ?_
        intro hslot
        have := huniq p (List.mem_cons_of_mem q hp) hslot
        subst this
        exact (List.nodup_cons.mp hnd).1 hp
      rw [List.filter_cons, if_neg (by simp), List.filter_eq_self.mpr hall,
          List.length_cons]
    · have hqslot : q.slot ≠ e0.slot := by
        intro h
        exact hq (huniq q (List.mem_cons_self q rest) h)
      have he0r : e0 ∈ rest := by
        rcases List.mem_cons.mp he0 with h | h
        · exact absurd h.symm hq
        · exact h
      rw [List.filter_cons, if_pos (bne_iff_ne.mpr hqslot), List.length_cons,
          List.length_cons,
          ← ih he0r (fun p hp hs => huniq p (List.mem_cons_of_mem q hp) hs)
            (List.nodup_cons.mp hnd).2]

/-! ### Claim theorems -/

/-- C3: on a frozen registry every registerDataType call returns Frozen and
leaves the whole state (both lists and the frozen flag) unchanged; freeze on
an already-frozen registry changes nothing; moreover registerDataType never
changes the frozen flag and freeze always leaves it set, so frozen is never
cleared except by the test-only reset. -/
theorem C3_frozen_registry (r r2 : Registry) (slot slot2 : Nat)
    (k k2 : DataTypeKind) (id sig id2 sig2 : Nat) (name name2 : String)
    (hf : r.frozen = true) :
    registerDataType r slot k id sig name = (RegistrationResult.Frozen, r) ∧
    freeze r = r ∧
    (registerDataType r2 slot2 k2 id2 sig2 name2).2.frozen = r2.frozen ∧
    (freeze r2).frozen = true := by
  refine ⟨?_, ?_, register_frozen r2 slot2 k2 id2 sig2 name2, rfl⟩
  · unfold registerDataType
    simp [hf]
  · obtain ⟨m, s, f⟩ := r
    simp only [freeze]
    simp only at hf
    rw [hf]

theorem C3_frozen_registry_witness :
    registerDataType ⟨[], [], true⟩ 0 DataTypeKind.Message 1 2 "x" =
      (RegistrationResult.Frozen, ⟨[], [], true⟩) ∧
    freeze ⟨[], [], true⟩ = (⟨[], [], true⟩ : Registry) ∧
    (registerDataType ⟨[], [], false⟩ 1 DataTypeKind.Service 3 4 "y").2.frozen =
      (Registry.mk [] [] false).frozen ∧
    (freeze ⟨[], [], false⟩).frozen = true :=
  C3_frozen_registry ⟨[], [], true⟩ ⟨[], [], false⟩ 0 1 DataTypeKind.Message
    DataTypeKind.Service 1 2 3 4 "x" "y" rfl

/-- C10: once the initial frozen check has passed, both internal remove calls
return Ok (removing a slot that is not a member is a successful no-op, and
the frozen flag cannot change between the check and the calls), the second
remove is redundant (it returns Ok and the identical state), and
registerDataType's result is exactly registImpl on the detached state. -/
theorem C10_internal_removes_ok (r : Registry) (slot : Nat) (k : DataTypeKind)
    (id sig : Nat) (name : String) (hf : r.frozen = false) :
    (removeEntry r k slot).1 = RegistrationResult.Ok ∧
    removeEntry (removeEntry r k slot).2 k slot =
      (RegistrationResult.Ok, (removeEntry r k slot).2) ∧
    registerDataType r slot k id sig name =
      registImpl (removeEntry r k slot).2 ⟨slot, ⟨k, id, sig, name⟩⟩ := by
  refine ⟨?_, ?_, ?_⟩
  · simp [removeEntry, hf]
  · simp [removeEntry, hf, frozen_setList, selectList_setList_same,
          setList_setList, filter_slot_idem]
  · rw [register_unfrozen_eq _ _ _ _ _ _ hf]
    simp [removeEntry, hf]

theorem C10_internal_removes_ok_witness :
    (removeEntry ⟨[⟨0, ⟨DataTypeKind.Message, 5, 11, "a"⟩⟩], [], false⟩
        DataTypeKind.Message 0).1 = RegistrationResult.Ok ∧
    removeEntry (removeEntry ⟨[⟨0, ⟨DataTypeKind.Message, 5, 11, "a"⟩⟩], [], false⟩
        DataTypeKind.Message 0).2 DataTypeKind.Message 0 =
      (RegistrationResult.Ok,
       (removeEntry ⟨[⟨0, ⟨DataTypeKind.Message, 5, 11, "a"⟩⟩], [], false⟩
         DataTypeKind.Message 0).2) ∧
    registerDataType ⟨[⟨0, ⟨DataTypeKind.Message, 5, 11, "a"⟩⟩], [], false⟩
        0 DataTypeKind.Message 7 22 "b" =
      registImpl (removeEntry ⟨[⟨0, ⟨DataTypeKind.Message, 5, 11, "a"⟩⟩], [], false⟩
        DataTypeKind.Message 0).2 ⟨0, ⟨DataTypeKind.Message, 7, 22, "b"⟩⟩ :=
  C10_internal_removes_ok ⟨[⟨0, ⟨DataTypeKind.Message, 5, 11, "a"⟩⟩], [], false⟩
    0 DataTypeKind.Message 7 22 "b" rfl

/-- C7: for every position X in [0, 1023], bit X of getDataTypeIDMask is set
iff an entry with id X is currently registered under kind k, and every bit
above 1023 is clear (all registered ids being in range). -/
theorem C7_id_mask (r : Registry) (k : DataTypeKind)
    (hids : ∀ e ∈ selectList r k, e.descriptor.id ≤ DataTypeID.Max) :
    (∀ X, X ≤ DataTypeID.Max →
      ((getDataTypeIDMask r k).testBit X = true ↔
        ∃ e ∈ selectList r k, e.descriptor.id = X)) ∧
    (∀ X, DataTypeID.Max < X → (getDataTypeIDMask r k).testBit X = false) := by
  constructor
  · intro X _
    rw [getDataTypeIDMask, testBit_maskOfList]
    simp [List.any_eq_true]
  · intro X hX
    rw [getDataTypeIDMask, testBit_maskOfList, List.any_eq_false]
    intro e he
    simp only [beq_iff_eq]
    exact Nat.ne_of_lt (Nat.lt_of_le_of_lt (hids e he) hX)

theorem C7_id_mask_witness :
    (getDataTypeIDMask ⟨[⟨0, ⟨DataTypeKind.Message, 3, 11, "t3"⟩⟩,
        ⟨1, ⟨DataTypeKind.Message, 7, 22, "t7"⟩⟩,
        ⟨2, ⟨DataTypeKind.Message, 300, 33, "t300"⟩⟩], [], true⟩
      DataTypeKind.Message).testBit 3 = true ∧
    (getDataTypeIDMask ⟨[⟨0, ⟨DataTypeKind.Message, 3, 11, "t3"⟩⟩,
        ⟨1, ⟨DataTypeKind.Message, 7, 22, "t7"⟩⟩,
        ⟨2, ⟨DataTypeKind.Message, 300, 33, "t300"⟩⟩], [], true⟩
      DataTypeKind.Message).testBit 2000 = false :=
  ⟨((C7_id_mask ⟨[⟨0, ⟨DataTypeKind.Message, 3, 11, "t3"⟩⟩,
        ⟨1, ⟨DataTypeKind.Message, 7, 22, "t7"⟩⟩,
        ⟨2, ⟨DataTypeKind.Message, 300, 33, "t300"⟩⟩], [], true⟩
      DataTypeKind.Message (by decide)).1 3 (by decide)).mpr
      ⟨⟨0, ⟨DataTypeKind.Message, 3, 11, "t3"⟩⟩, by decide, rfl⟩,
   (C7_id_mask ⟨[⟨0, ⟨DataTypeKind.Message, 3, 11, "t3"⟩⟩,
        ⟨1, ⟨DataTypeKind.Message, 7, 22, "t7"⟩⟩,
        ⟨2, ⟨DataTypeKind.Message, 300, 33, "t300"⟩⟩], [], true⟩
      DataTypeKind.Message (by decide)).2 2000 (by decide)⟩

/-- C2: computeAggregateSignature keeps set exactly those mask bits whose
position is a registered id (clearing the bits of unknown ids), returns the
fold of the signatures of the entries that are both registered and selected
by the mask, taken in ascending id order with the order-sensitive
combination function, and the result depends only on the set of registered
entries, not on the order in which they were registered. -/
theorem C2_aggregate_signature (ext : Nat → Nat → Nat) (r1 r2 : Registry)
    (k : DataTypeKind) (m : Nat)
    (h1 : SortedByID (selectList r1 k)) (h2 : SortedByID (selectList r2 k))
    (hperm : (selectList r1 k).Perm (selectList r2 k)) :
    (∀ X, (computeAggregateSignature ext r1 k m).2.testBit X =
      (m.testBit X && (selectList r1 k).any (fun e => e.descriptor.id == X))) ∧
    (computeAggregateSignature ext r1 k m).1 =
      combineChain ext (((selectList r1 k).filter
        (fun e => m.testBit e.descriptor.id)).map
        (fun e => e.descriptor.signature)) ∧
    computeAggregateSignature ext r1 k m =
      computeAggregateSignature ext r2 k m := by
  have hEq : selectList r1 k = selectList r2 k := sorted_perm_eq hperm h1 h2
  refine ⟨?_, ?_, ?_⟩
  · intro X
    show (m &&& getDataTypeIDMask r1 k).testBit X = _
    rw [Nat.testBit_and, getDataTypeIDMask, testBit_maskOfList]
  · show foldSig ext m (selectList r1 k) none = _
    exact foldSig_none ext m (selectList r1 k)
  · rw [computeAggregateSignature, computeAggregateSignature,
        getDataTypeIDMask, getDataTypeIDMask, hEq]

theorem C2_aggregate_signature_witness :
    ((computeAggregateSignature (fun a b => a * 1000003 + b)
        (registerDataType (registerDataType ⟨[], [], false⟩
          0 DataTypeKind.Message 3 111 "t3").2
          1 DataTypeKind.Message 7 222 "t7").2
        DataTypeKind.Message (2 ^ 3 + 2 ^ 7 + 2 ^ 999)).2.testBit 999 =
      ((2 ^ 3 + 2 ^ 7 + 2 ^ 999 : Nat).testBit 999 &&
        (selectList (registerDataType (registerDataType ⟨[], [], false⟩
          0 DataTypeKind.Message 3 111 "t3").2
          1 DataTypeKind.Message 7 222 "t7").2 DataTypeKind.Message).any
          (fun e => e.descriptor.id == 999))) ∧
    (computeAggregateSignature (fun a b => a * 1000003 + b)
        (registerDataType (registerDataType ⟨[], [], false⟩
          0 DataTypeKind.Message 3 111 "t3").2
          1 DataTypeKind.Message 7 222 "t7").2
        DataTypeKind.Message (2 ^ 3 + 2 ^ 7 + 2 ^ 999)).1 =
      combineChain (fun a b => a * 1000003 + b)
        (((selectList (registerDataType (registerDataType ⟨[], [], false⟩
          0 DataTypeKind.Message 3 111 "t3").2
          1 DataTypeKind.Message 7 222 "t7").2 DataTypeKind.Message).filter
          (fun e => (2 ^ 3 + 2 ^ 7 + 2 ^ 999 : Nat).testBit e.descriptor.id)).map
          (fun e => e.descriptor.signature)) ∧
    computeAggregateSignature (fun a b => a * 1000003 + b)
        (registerDataType (registerDataType ⟨[], [], false⟩
          0 DataTypeKind.Message 3 111 "t3").2
          1 DataTypeKind.Message 7 222 "t7").2
        DataTypeKind.Message (2 ^ 3 + 2 ^ 7 + 2 ^ 999) =
      computeAggregateSignature (fun a b => a * 1000003 + b)
        (registerDataType (registerDataType ⟨[], [], false⟩
          1 DataTypeKind.Message 7 222 "t7").2
          0 DataTypeKind.Message 3 111 "t3").2
        DataTypeKind.Message (2 ^ 3 + 2 ^ 7 + 2 ^ 999) := by
  have h := C2_aggregate_signature (fun a b => a * 1000003 + b)
    (registerDataType (registerDataType ⟨[], [], false⟩
      0 DataTypeKind.Message 3 111 "t3").2
      1 DataTypeKind.Message 7 222 "t7").2
    (registerDataType (registerDataType ⟨[], [], false⟩
      1 DataTypeKind.Message 7 222 "t7").2
      0 DataTypeKind.Message 3 111 "t3").2
    DataTypeKind.Message (2 ^ 3 + 2 ^ 7 + 2 ^ 999)
    (by decide) (by decide) (by decide)
  exact ⟨h.1 999, h.2.1, h.2.2⟩

/-- C8: register, remove, freeze and reset all preserve the per-kind list
invariant: both lists stay sorted strictly ascending by id, and hence no two
entries of the same list share an id. -/
theorem C8_invariant (r : Registry) (slot : Nat) (k : DataTypeKind)
    (id sig : Nat) (name : String) (hinv : RegistryInv r) :
    RegistryInv (registerDataType r slot k id sig name).2 ∧
    RegistryInv (removeEntry r k slot).2 ∧
    RegistryInv (freeze r) ∧
    RegistryInv (reset r) ∧
    (registerDataType r slot k id sig name).2.msgs.Pairwise
      (fun a b => a.descriptor.id ≠ b.descriptor.id) ∧
    (registerDataType r slot k id sig name).2.srvs.Pairwise
      (fun a b => a.descriptor.id ≠ b.descriptor.id) := by
  have hreg := register_inv slot k id sig name hinv
  refine ⟨hreg, removeEntry_inv k slot hinv, hinv,
    ⟨List.Pairwise.nil, List.Pairwise.nil⟩, ?_, ?_⟩
  · exact hreg.1.imp (fun h => Nat.ne_of_lt h)
  · exact hreg.2.imp (fun h => Nat.ne_of_lt h)

/-- C1 as stated fails: on an unfrozen registry holding id 5 under slot 0,
registering slot 1 with the in-range id 5 and the fresh non-empty name "b"
returns Collision, not Ok. -/
theorem C1_counterexample :
    (Registry.mk [⟨0, ⟨DataTypeKind.Message, 5, 11, "a"⟩⟩] [] false).frozen
      = false ∧
    (5 : Nat) ≤ DataTypeID.Max ∧
    ("b" : String) ≠ "" ∧
    ((selectList ⟨[⟨0, ⟨DataTypeKind.Message, 5, 11, "a"⟩⟩], [], false⟩
        DataTypeKind.Message).any (fun p => p.descriptor.name == "b")) = false ∧
    (registerDataType ⟨[⟨0, ⟨DataTypeKind.Message, 5, 11, "a"⟩⟩], [], false⟩
        1 DataTypeKind.Message 5 22 "b").1 = RegistrationResult.Collision ∧
    RegistrationResult.Collision ≠ RegistrationResult.Ok := by decide

/-- C1 (amended): registering an in-range id and a non-empty name, neither of
which is already registered under kind k by a different slot, on an unfrozen
registry returns Ok, and afterwards find(k, id) and find(k, name) both return
the just-registered descriptor. -/
theorem C1_register_then_find (r : Registry) (slot : Nat) (k : DataTypeKind)
    (id sig : Nat) (name : String) (hf : r.frozen = false)
    (hid : id ≤ DataTypeID.Max) (hname : name ≠ "")
    (hfresh : ∀ p ∈ selectList r k, p.slot ≠ slot →
      p.descriptor.id ≠ id ∧ p.descriptor.name ≠ name) :
    (registerDataType r slot k id sig name).1 = RegistrationResult.Ok ∧
    findByID (registerDataType r slot k id sig name).2 k id =
      some ⟨k, id, sig, name⟩ ∧
    findByName (registerDataType r slot k id sig name).2 k name =
      some ⟨k, id, sig, name⟩ := by
  have hreg := register_ok_result r slot k id sig name hf hid hname hfresh
  rw [hreg]
  have hmem : ∀ p ∈ (selectList r k).filter (fun p => p.slot != slot),
      p.descriptor.id ≠ id ∧ p.descriptor.name ≠ name := by
    intro p hp
    exact hfresh p (List.mem_of_mem_filter hp)
      (bne_iff_ne.mp (List.mem_filter.mp hp).2)
  have he : (⟨slot, ⟨k, id, sig, name⟩⟩ : Entry) ∈
      listInsert ⟨slot, ⟨k, id, sig, name⟩⟩
        ((selectList r k).filter (fun p => p.slot != slot)) :=
    mem_listInsert.mpr (Or.inl rfl)
  have huniqID : ∀ p ∈ listInsert ⟨slot, ⟨k, id, sig, name⟩⟩
      ((selectList r k).filter (fun p => p.slot != slot)),
      (p.descriptor.id == id) = true →
        p = (⟨slot, ⟨k, id, sig, name⟩⟩ : Entry) := by
    intro p hp hPp
    rcases mem_listInsert.mp hp with h | h
    · exact h
    · exact absurd (beq_iff_eq.mp hPp) (hmem p h).1
  have huniqName : ∀ p ∈ listInsert ⟨slot, ⟨k, id, sig, name⟩⟩
      ((selectList r k).filter (fun p => p.slot != slot)),
      (p.descriptor.name == name) = true →
        p = (⟨slot, ⟨k, id, sig, name⟩⟩ : Entry) := by
    intro p hp hPp
    rcases mem_listInsert.mp hp with h | h
    · exact h
    · exact absurd (beq_iff_eq.mp hPp) (hmem p h).2
  refine ⟨rfl, ?_, ?_⟩
  · rw [findByID, selectList_setList_same,
        find?_eq_some_of_unique he (by simp) huniqID]
    rfl
  · rw [findByName, selectList_setList_same,
        find?_eq_some_of_unique he (by simp) huniqName]
    rfl

theorem C1_register_then_find_witness :
    (registerDataType ⟨[⟨0, ⟨DataTypeKind.Message, 3, 9, "a"⟩⟩], [], false⟩
        1 DataTypeKind.Message 7 42 "b").1 = RegistrationResult.Ok ∧
    findByID (registerDataType ⟨[⟨0, ⟨DataTypeKind.Message, 3, 9, "a"⟩⟩], [], false⟩
        1 DataTypeKind.Message 7 42 "b").2 DataTypeKind.Message 7 =
      some ⟨DataTypeKind.Message, 7, 42, "b"⟩ ∧
    findByName (registerDataType ⟨[⟨0, ⟨DataTypeKind.Message, 3, 9, "a"⟩⟩], [], false⟩
        1 DataTypeKind.Message 7 42 "b").2 DataTypeKind.Message "b" =
      some ⟨DataTypeKind.Message, 7, 42, "b"⟩ :=
  C1_register_then_find ⟨[⟨0, ⟨DataTypeKind.Message, 3, 9, "a"⟩⟩], [], false⟩
    1 DataTypeKind.Message 7 42 "b" rfl (by decide) (by decide) (by decide)

/-- C4 as stated fails when the attempted name is empty: the attempted id
collides with a different registered slot of the same kind, yet the result is
InvalidParams (parameter validation precedes the collision scan), not
Collision. -/
theorem C4_counterexample :
    (Registry.mk [⟨0, ⟨DataTypeKind.Message, 5, 11, "a"⟩⟩] [] false).frozen
      = false ∧
    ((selectList ⟨[⟨0, ⟨DataTypeKind.Message, 5, 11, "a"⟩⟩], [], false⟩
        DataTypeKind.Message).any
      (fun p => p.slot != 1 && p.descriptor.id == 5)) = true ∧
    (registerDataType ⟨[⟨0, ⟨DataTypeKind.Message, 5, 11, "a"⟩⟩], [], false⟩
        1 DataTypeKind.Message 5 22 "").1 = RegistrationResult.InvalidParams ∧
    RegistrationResult.InvalidParams ≠ RegistrationResult.Collision := by decide

/-- C4 (amended): with an in-range id and a non-empty name, attempting to
register a slot whose id or name equals that of a different already-registered
slot of the same kind returns Collision; the attempted slot ends up a member
of no list (slots being kind-bound, it does not occupy the other kind's list),
and every other slot's registration in the kind is untouched. -/
theorem C4_collision_refused (r : Registry) (slot : Nat) (k : DataTypeKind)
    (id sig : Nat) (name : String) (hf : r.frozen = false)
    (hid : id ≤ DataTypeID.Max) (hname : name ≠ "")
    (hotherList : ∀ p ∈ selectList r (otherKind k), p.slot ≠ slot)
    (hcol : ∃ p ∈ selectList r k, p.slot ≠ slot ∧
      (p.descriptor.id = id ∨ p.descriptor.name = name)) :
    (registerDataType r slot k id sig name).1 = RegistrationResult.Collision ∧
    (∀ p ∈ (registerDataType r slot k id sig name).2.msgs, p.slot ≠ slot) ∧
    (∀ p ∈ (registerDataType r slot k id sig name).2.srvs, p.slot ≠ slot) ∧
    (∀ p ∈ selectList r k, p.slot ≠ slot →
      p ∈ selectList (registerDataType r slot k id sig name).2 k) := by
  have hreg := register_collision_result r slot k id sig name hf hid hname hcol
  rw [hreg]
  cases k with
  | Message =>
    refine ⟨rfl, ?_, ?_, ?_⟩
    · intro p hp
      exact bne_iff_ne.mp (List.mem_filter.mp hp).2
    · intro p hp
      exact hotherList p hp
    · intro p hp hps
      exact List.mem_filter.mpr ⟨hp, bne_iff_ne.mpr hps⟩
  | Service =>
    refine ⟨rfl, ?_, ?_, ?_⟩
    · intro p hp
      exact hotherList p hp
    · intro p hp
      exact bne_iff_ne.mp (List.mem_filter.mp hp).2
    · intro p hp hps
      exact List.mem_filter.mpr ⟨hp, bne_iff_ne.mpr hps⟩

theorem C4_collision_refused_witness :
    (registerDataType ⟨[⟨0, ⟨DataTypeKind.Message, 5, 11, "a"⟩⟩], [], false⟩
        1 DataTypeKind.Message 5 22 "b").1 = RegistrationResult.Collision ∧
    (⟨0, ⟨DataTypeKind.Message, 5, 11, "a"⟩⟩ : Entry) ∈
      selectList (registerDataType
        ⟨[⟨0, ⟨DataTypeKind.Message, 5, 11, "a"⟩⟩], [], false⟩
        1 DataTypeKind.Message 5 22 "b").2 DataTypeKind.Message :=
  ⟨(C4_collision_refused ⟨[⟨0, ⟨DataTypeKind.Message, 5, 11, "a"⟩⟩], [], false⟩
      1 DataTypeKind.Message 5 22 "b" rfl (by decide) (by decide) (by decide)
      ⟨⟨0, ⟨DataTypeKind.Message, 5, 11, "a"⟩⟩, by decide, by decide,
        Or.inl rfl⟩).1,
   (C4_collision_refused ⟨[⟨0, ⟨DataTypeKind.Message, 5, 11, "a"⟩⟩], [], false⟩
      1 DataTypeKind.Message 5 22 "b" rfl (by decide) (by decide) (by decide)
      ⟨⟨0, ⟨DataTypeKind.Message, 5, 11, "a"⟩⟩, by decide, by decide,
        Or.inl rfl⟩).2.2.2
     ⟨0, ⟨DataTypeKind.Message, 5, 11, "a"⟩⟩ (by decide) (by decide)⟩

/-- C5: re-registering the currently-registered slot with a different,
non-colliding, in-range id B returns Ok; afterwards the old id A no longer
resolves, the new id B resolves to the updated descriptor, and the number of
registered entries for the kind is unchanged. -/
theorem C5_override_id (r : Registry) (slot : Nat) (k : DataTypeKind)
    (A B sig : Nat) (name : String) (e0 : Entry) (hf : r.frozen = false)
    (hsorted : SortedByID (selectList r k))
    (he0 : e0 ∈ selectList r k) (hslot : e0.slot = slot)
    (hA : e0.descriptor.id = A)
    (huniq : ∀ p ∈ selectList r k, p.slot = slot → p = e0)
    (hother : ∀ p ∈ selectList r k, p.slot ≠ slot →
      p.descriptor.id ≠ A ∧ p.descriptor.id ≠ B ∧ p.descriptor.name ≠ name)
    (hAB : A ≠ B) (hB : B ≤ DataTypeID.Max) (hname : name ≠ "") :
    (registerDataType r slot k B sig name).1 = RegistrationResult.Ok ∧
    findByID (registerDataType r slot k B sig name).2 k A = none ∧
    findByID (registerDataType r slot k B sig name).2 k B =
      some ⟨k, B, sig, name⟩ ∧
    (selectList (registerDataType r slot k B sig name).2 k).length =
      (selectList r k).length := by
  subst hslot
  subst hA
  have hreg := register_ok_result r e0.slot k B sig name hf hB hname
    (fun p hp hps => ⟨(hother p hp hps).2.1, (hother p hp hps).2.2⟩)
  rw [hreg]
  have hmemf : ∀ p ∈ (selectList r k).filter (fun p => p.slot != e0.slot),
      p.slot ≠ e0.slot ∧ p ∈ selectList r k := fun p hp =>
    ⟨bne_iff_ne.mp (List.mem_filter.mp hp).2, List.mem_of_mem_filter hp⟩
  have he : (⟨e0.slot, ⟨k, B, sig, name⟩⟩ : Entry) ∈
      listInsert ⟨e0.slot, ⟨k, B, sig, name⟩⟩
        ((selectList r k).filter (fun p => p.slot != e0.slot)) :=
    mem_listInsert.mpr (Or.inl rfl)
  have hfindA : (listInsert (⟨e0.slot, ⟨k, B, sig, name⟩⟩ : Entry)
      ((selectList r k).filter (fun p => p.slot != e0.slot))).find?
      (fun p => p.descriptor.id == e0.descriptor.id) = none := by
    rw [List.find?_eq_none]
    intro p hp
    rcases mem_listInsert.mp hp with h | h
    · subst h
      simp only [beq_iff_eq]
      exact fun hEq => hAB hEq.symm
    · simp only [beq_iff_eq]
      exact (hother p (hmemf p h).2 (hmemf p h).1).1
  have huniqB : ∀ p ∈ listInsert ⟨e0.slot, ⟨k, B, sig, name⟩⟩
      ((selectList r k).filter (fun p => p.slot != e0.slot)),
      (p.descriptor.id == B) = true →
        p = (⟨e0.slot, ⟨k, B, sig, name⟩⟩ : Entry) := by
    intro p hp hPp
    rcases mem_listInsert.mp hp with h | h
    · exact h
    · exact absurd (beq_iff_eq.mp hPp)
        (hother p (hmemf p h).2 (hmemf p h).1).2.1
  refine ⟨rfl, ?_, ?_, ?_⟩
  · rw [findByID, selectList_setList_same, hfindA]
    rfl
  · rw [findByID, selectList_setList_same,
        find?_eq_some_of_unique he (by simp) huniqB]
    rfl
  · rw [selectList_setList_same, length_listInsert]
    exact length_filter_slot he0 huniq (sortedByID_nodup hsorted)

theorem C5_override_id_witness :
    (registerDataType ⟨[⟨0, ⟨DataTypeKind.Message, 5, 11, "a"⟩⟩,
        ⟨1, ⟨DataTypeKind.Message, 9, 12, "c"⟩⟩], [], false⟩
      0 DataTypeKind.Message 7 99 "a").1 = RegistrationResult.Ok ∧
    findByID (registerDataType ⟨[⟨0, ⟨DataTypeKind.Message, 5, 11, "a"⟩⟩,
        ⟨1, ⟨DataTypeKind.Message, 9, 12, "c"⟩⟩], [], false⟩
      0 DataTypeKind.Message 7 99 "a").2 DataTypeKind.Message 5 = none ∧
    findByID (registerDataType ⟨[⟨0, ⟨DataTypeKind.Message, 5, 11, "a"⟩⟩,
        ⟨1, ⟨DataTypeKind.Message, 9, 12, "c"⟩⟩], [], false⟩
      0 DataTypeKind.Message 7 99 "a").2 DataTypeKind.Message 7 =
      some ⟨DataTypeKind.Message, 7, 99, "a"⟩ ∧
    (selectList (registerDataType ⟨[⟨0, ⟨DataTypeKind.Message, 5, 11, "a"⟩⟩,
        ⟨1, ⟨DataTypeKind.Message, 9, 12, "c"⟩⟩], [], false⟩
      0 DataTypeKind.Message 7 99 "a").2 DataTypeKind.Message).length =
      (selectList ⟨[⟨0, ⟨DataTypeKind.Message, 5, 11, "a"⟩⟩,
        ⟨1, ⟨DataTypeKind.Message, 9, 12, "c"⟩⟩], [], false⟩
        DataTypeKind.Message).length :=
  C5_override_id ⟨[⟨0, ⟨DataTypeKind.Message, 5, 11, "a"⟩⟩,
      ⟨1, ⟨DataTypeKind.Message, 9, 12, "c"⟩⟩], [], false⟩
    0 DataTypeKind.Message 5 7 99 "a" ⟨0, ⟨DataTypeKind.Message, 5, 11, "a"⟩⟩
    rfl (by decide) (by decide) rfl rfl (by decide) (by decide) (by decide)
    (by decide) (by decide)

/-- C6: when a currently-registered slot is re-registered with parameters
that collide with a different slot of the same kind, the call returns
Collision and the slot's previous registration is not restored: the slot is
left a member of no list, and its old id and old name no longer resolve. -/
theorem C6_failed_override (r : Registry) (slot : Nat) (k : DataTypeKind)
    (id sig : Nat) (name : String) (e0 : Entry) (hf : r.frozen = false)
    (he0 : e0 ∈ selectList r k) (hslot : e0.slot = slot)
    (huniqOld : ∀ p ∈ selectList r k, p.slot ≠ slot →
      p.descriptor.id ≠ e0.descriptor.id ∧
      p.descriptor.name ≠ e0.descriptor.name)
    (hotherList : ∀ p ∈ selectList r (otherKind k), p.slot ≠ slot)
    (hid : id ≤ DataTypeID.Max) (hname : name ≠ "")
    (hcol : ∃ p ∈ selectList r k, p.slot ≠ slot ∧
      (p.descriptor.id = id ∨ p.descriptor.name = name)) :
    (registerDataType r slot k id sig name).1 = RegistrationResult.Collision ∧
    (∀ p ∈ (registerDataType r slot k id sig name).2.msgs, p.slot ≠ slot) ∧
    (∀ p ∈ (registerDataType r slot k id sig name).2.srvs, p.slot ≠ slot) ∧
    findByID (registerDataType r slot k id sig name).2 k
      e0.descriptor.id = none ∧
    findByName (registerDataType r slot k id sig name).2 k
      e0.descriptor.name = none := by
  subst hslot
  have hreg := register_collision_result r e0.slot k id sig name hf hid
    hname hcol
  rw [hreg]
  have hmemf : ∀ p ∈ (selectList r k).filter (fun p => p.slot != e0.slot),
      p.slot ≠ e0.slot ∧ p ∈ selectList r k := fun p hp =>
    ⟨bne_iff_ne.mp (List.mem_filter.mp hp).2, List.mem_of_mem_filter hp⟩
  have hfindID : ((selectList r k).filter (fun p => p.slot != e0.slot)).find?
      (fun p => p.descriptor.id == e0.descriptor.id) = none := by
    rw [List.find?_eq_none]
    intro p hp
    simp only [beq_iff_eq]
    exact (huniqOld p (hmemf p hp).2 (hmemf p hp).1).1
  have hfindName : ((selectList r k).filter (fun p => p.slot != e0.slot)).find?
      (fun p => p.descriptor.name == e0.descriptor.name) = none := by
    rw [List.find?_eq_none]
    intro p hp
    simp only [beq_iff_eq]
    exact (huniqOld p (hmemf p hp).2 (hmemf p hp).1).2
  refine ⟨rfl, ?_, ?_, ?_, ?_⟩
  · cases k with
    | Message => exact fun p hp => (hmemf p hp).1
    | Service => exact fun p hp => hotherList p hp
  · cases k with
    | Message => exact fun p hp => hotherList p hp
    | Service => exact fun p hp => (hmemf p hp).1
  · rw [findByID, selectList_setList_same, hfindID]
    rfl
  · rw [findByName, selectList_setList_same, hfindName]
    rfl

theorem C6_failed_override_witness :
    (registerDataType ⟨[⟨0, ⟨DataTypeKind.Message, 5, 11, "a"⟩⟩,
        ⟨1, ⟨DataTypeKind.Message, 9, 12, "c"⟩⟩], [], false⟩
      0 DataTypeKind.Message 9 77 "x").1 = RegistrationResult.Collision ∧
    findByID (registerDataType ⟨[⟨0, ⟨DataTypeKind.Message, 5, 11, "a"⟩⟩,
        ⟨1, ⟨DataTypeKind.Message, 9, 12, "c"⟩⟩], [], false⟩
      0 DataTypeKind.Message 9 77 "x").2 DataTypeKind.Message 5 = none ∧
    findByName (registerDataType ⟨[⟨0, ⟨DataTypeKind.Message, 5, 11, "a"⟩⟩,
        ⟨1, ⟨DataTypeKind.Message, 9, 12, "c"⟩⟩], [], false⟩
      0 DataTypeKind.Message 9 77 "x").2 DataTypeKind.Message "a" = none :=
  ⟨(C6_failed_override ⟨[⟨0, ⟨DataTypeKind.Message, 5, 11, "a"⟩⟩,
      ⟨1, ⟨DataTypeKind.Message, 9, 12, "c"⟩⟩], [], false⟩
    0 DataTypeKind.Message 9 77 "x" ⟨0, ⟨DataTypeKind.Message, 5, 11, "a"⟩⟩
    rfl (by decide) rfl (by decide) (by decide) (by decide) (by decide)
    ⟨⟨1, ⟨DataTypeKind.Message, 9, 12, "c"⟩⟩, by decide, by decide,
      Or.inl rfl⟩).1,
   (C6_failed_override ⟨[⟨0, ⟨DataTypeKind.Message, 5, 11, "a"⟩⟩,
      ⟨1, ⟨DataTypeKind.Message, 9, 12, "c"⟩⟩], [], false⟩
    0 DataTypeKind.Message 9 77 "x" ⟨0, ⟨DataTypeKind.Message, 5, 11, "a"⟩⟩
    rfl (by decide) rfl (by decide) (by decide) (by decide) (by decide)
    ⟨⟨1, ⟨DataTypeKind.Message, 9, 12, "c"⟩⟩, by decide, by decide,
      Or.inl rfl⟩).2.2.2.1,
   (C6_failed_override ⟨[⟨0, ⟨DataTypeKind.Message, 5, 11, "a"⟩⟩,
      ⟨1, ⟨DataTypeKind.Message, 9, 12, "c"⟩⟩], [], false⟩
    0 DataTypeKind.Message 9 77 "x" ⟨0, ⟨DataTypeKind.Message, 5, 11, "a"⟩⟩
    rfl (by decide) rfl (by decide) (by decide) (by decide) (by decide)
    ⟨⟨1, ⟨DataTypeKind.Message, 9, 12, "c"⟩⟩, by decide, by decide,
      Or.inl rfl⟩).2.2.2.2⟩

/-- C9: registering under one kind never changes the other kind's list, and
the same id and the same name can be registered under Message and under
Service through distinct slots, both calls returning Ok. -/
theorem C9_cross_kind (r r2 : Registry) (slot1 slot2 slotx : Nat)
    (id sig1 sig2 idx sigx : Nat) (name namex : String)
    (hf : r.frozen = false) (hid : id ≤ DataTypeID.Max) (hname : name ≠ "")
    (hm : ∀ p ∈ r.msgs, p.descriptor.id ≠ id ∧ p.descriptor.name ≠ name)
    (hs : ∀ p ∈ r.srvs, p.descriptor.id ≠ id ∧ p.descriptor.name ≠ name) :
    (registerDataType r2 slotx DataTypeKind.Message idx sigx namex).2.srvs =
      r2.srvs ∧
    (registerDataType r2 slotx DataTypeKind.Service idx sigx namex).2.msgs =
      r2.msgs ∧
    (registerDataType r slot1 DataTypeKind.Message id sig1 name).1 =
      RegistrationResult.Ok ∧
    (registerDataType
      (registerDataType r slot1 DataTypeKind.Message id sig1 name).2
      slot2 DataTypeKind.Service id sig2 name).1 = RegistrationResult.Ok := by
  have hframe : selectList
      (registerDataType r slot1 DataTypeKind.Message id sig1 name).2
      DataTypeKind.Service = selectList r DataTypeKind.Service :=
    @register_other r slot1 DataTypeKind.Message id sig1 name
      DataTypeKind.Service (by decide)
  have h1 := register_ok_result r slot1 DataTypeKind.Message id sig1 name
    hf hid hname (fun p hp _ => hm p hp)
  have hf1 : (registerDataType r slot1 DataTypeKind.Message id sig1 name).2.frozen
      = false := by
    rw [register_frozen]
    exact hf
  have hfresh2 : ∀ p ∈ selectList
      (registerDataType r slot1 DataTypeKind.Message id sig1 name).2
      DataTypeKind.Service, p.slot ≠ slot2 →
      p.descriptor.id ≠ id ∧ p.descriptor.name ≠ name := by
    intro p hp _
    rw [hframe] at hp
    exact hs p hp
  have h2 := register_ok_result
    (registerDataType r slot1 DataTypeKind.Message id sig1 name).2
    slot2 DataTypeKind.Service id sig2 name hf1 hid hname hfresh2
  refine ⟨?_, ?_, ?_, ?_⟩
  · exact @register_other r2 slotx DataTypeKind.Message idx sigx namex
      DataTypeKind.Service (by decide)
  · exact @register_other r2 slotx DataTypeKind.Service idx sigx namex
      DataTypeKind.Message (by decide)
  · rw [h1]
  · rw [h2]

theorem C9_cross_kind_witness :
    (registerDataType ⟨[], [⟨3, ⟨DataTypeKind.Service, 8, 1, "z"⟩⟩], false⟩
      2 DataTypeKind.Message 4 6 "w").2.srvs =
      (Registry.mk [] [⟨3, ⟨DataTypeKind.Service, 8, 1, "z"⟩⟩] false).srvs ∧
    (registerDataType ⟨[], [⟨3, ⟨DataTypeKind.Service, 8, 1, "z"⟩⟩], false⟩
      2 DataTypeKind.Service 4 6 "w").2.msgs =
      (Registry.mk [] [⟨3, ⟨DataTypeKind.Service, 8, 1, "z"⟩⟩] false).msgs ∧
    (registerDataType ⟨[], [], false⟩ 0 DataTypeKind.Message 20 100 "a").1 =
      RegistrationResult.Ok ∧
    (registerDataType
      (registerDataType ⟨[], [], false⟩ 0 DataTypeKind.Message 20 100 "a").2
      1 DataTypeKind.Service 20 200 "a").1 = RegistrationResult.Ok :=
  C9_cross_kind ⟨[], [], false⟩
    ⟨[], [⟨3, ⟨DataTypeKind.Service, 8, 1, "z"⟩⟩], false⟩
    0 1 2 20 100 200 4 6 "a" "w" rfl (by decide) (by decide) (by decide)
    (by decide)

theorem C8_invariant_witness :
    RegistryInv (registerDataType ⟨[⟨0, ⟨DataTypeKind.Message, 3, 1, "a"⟩⟩],
        [⟨9, ⟨DataTypeKind.Service, 4, 2, "s"⟩⟩], false⟩
      1 DataTypeKind.Message 7 5 "b").2 ∧
    RegistryInv (removeEntry ⟨[⟨0, ⟨DataTypeKind.Message, 3, 1, "a"⟩⟩],
        [⟨9, ⟨DataTypeKind.Service, 4, 2, "s"⟩⟩], false⟩
      DataTypeKind.Message 1).2 ∧
    RegistryInv (freeze ⟨[⟨0, ⟨DataTypeKind.Message, 3, 1, "a"⟩⟩],
        [⟨9, ⟨DataTypeKind.Service, 4, 2, "s"⟩⟩], false⟩) ∧
    RegistryInv (reset ⟨[⟨0, ⟨DataTypeKind.Message, 3, 1, "a"⟩⟩],
        [⟨9, ⟨DataTypeKind.Service, 4, 2, "s"⟩⟩], false⟩) :=
  ⟨(C8_invariant ⟨[⟨0, ⟨DataTypeKind.Message, 3, 1, "a"⟩⟩],
      [⟨9, ⟨DataTypeKind.Service, 4, 2, "s"⟩⟩], false⟩
    1 DataTypeKind.Message 7 5 "b" (by decide)).1,
   (C8_invariant ⟨[⟨0, ⟨DataTypeKind.Message, 3, 1, "a"⟩⟩],
      [⟨9, ⟨DataTypeKind.Service, 4, 2, "s"⟩⟩], false⟩
    1 DataTypeKind.Message 7 5 "b" (by decide)).2.1,
   (C8_invariant ⟨[⟨0, ⟨DataTypeKind.Message, 3, 1, "a"⟩⟩],
      [⟨9, ⟨DataTypeKind.Service, 4, 2, "s"⟩⟩], false⟩
    1 DataTypeKind.Message 7 5 "b" (by decide)).2.2.1,
   (C8_invariant ⟨[⟨0, ⟨DataTypeKind.Message, 3, 1, "a"⟩⟩],
      [⟨9, ⟨DataTypeKind.Service, 4, 2, "s"⟩⟩], false⟩
    1 DataTypeKind.Message 7 5 "b" (by decide)).2.2.2.1⟩
